import Mathlib

/-!
Shallow embedding of the diagram editor core (the Diagram Creator script,
src/unnamed/part_001) and proofs about the claims of the specification.

Modelling conventions:
* JavaScript numbers are modelled as exact rationals; the two places where
  the code computes a square root (distance tests) go through a cast to the
  reals and Real.sqrt.
* The JavaScript object graph is modelled as a heap: a list of Shape records
  keyed by their immutable id field.  The global shapes array is a list of
  ids into that heap.  Removing an id from the array models
  `shapes = shapes.filter(...)`; the object itself stays reachable through
  any connector that still references it, exactly as in JavaScript.
* Object references stored in startNode and endNode are modelled by the
  referenced object id (the id is assigned once in the constructor and is
  never reassigned anywhere in the script).
* Canvas drawing, cursor changes and the hoveredConnectionPoint highlight are
  pure rendering effects; they read the store but never write it, so they are
  not part of the state.
-/

namespace DiagramCreator

/-- Shape kinds and the tool palette share one string space in the source
(the constructor is called as `new Shape(currentTool, ...)`), so both are
modelled by a single inductive type. -/
inductive ShapeType where
  | select
  | rectangle
  | circle
  | line
  | arrow
  | text
deriving DecidableEq

/-- The four connection-point names north, south, east, west. -/
inductive Dir where
  | north
  | south
  | east
  | west
deriving DecidableEq

/-- One Shape object, mirroring the field layout of the Shape class
constructor (src/unnamed/part_001, lines 18-35). -/
structure Shape where
  id : Nat
  type : ShapeType
  x : Rat
  y : Rat
  width : Rat
  height : Rat
  text : String
  strokeColor : String
  fillColor : String
  lineWidth : Nat
  startNode : Option Nat
  startPoint : Option Dir
  endNode : Option Nat
  endPoint : Option Dir
deriving DecidableEq

/-- The Shape constructor: `new Shape(type, x, y, width, height, text)` with
the style defaults and null connector bindings of lines 27-34.  The caller
supplies the id that `nextShapeId++` would hand out. -/
def mkShape (type : ShapeType) (x y width height : Rat) (text : String)
    (id : Nat) : Shape :=
  { id := id, type := type, x := x, y := y, width := width, height := height
    text := text, strokeColor := "#000000", fillColor := "#ffffff"
    lineWidth := 2
    startNode := none, startPoint := none, endNode := none, endPoint := none }

/-- The mutable shape state of the script: the heap of all Shape objects ever
created (keyed by id), the `shapes` array (as a list of ids in array order),
and the `nextShapeId` counter. -/
structure Store where
  heap : List Shape
  arr : List Nat
  nextId : Nat
deriving DecidableEq

/-- Dereference an object id in the heap. -/
def lookupShape (heap : List Shape) (id : Nat) : Option Shape :=
  heap.find? (fun s => s.id = id)

/-- The `shapes` array as a list of Shape records, in array order. -/
def storeShapes (store : Store) : List Shape :=
  store.arr.filterMap (lookupShape store.heap)

/-- `shapes.push(new Shape(...))`: the new object enters the heap and its id
is appended to the array; `nextShapeId` is incremented by the constructor. -/
def pushShape (store : Store) (mk : Nat → Shape) : Store :=
  { heap := store.heap ++ [mk store.nextId]
    arr := store.arr ++ [store.nextId]
    nextId := store.nextId + 1 }

/-- In-place mutation of the object with the given id (JavaScript property
assignment seen through every reference to the object). -/
def updateShape (heap : List Shape) (id : Nat) (f : Shape → Shape) :
    List Shape :=
  heap.map (fun s => if s.id = id then f s else s)

/-- `Shape.getConnectionPoints` (lines 37-61): line, arrow and text shapes
have no connection points; for every other shape the code returns the four
edge-midpoint anchors, with the circle branch and the default branch spelling
out the same four formulas. -/
def getConnectionPoints (s : Shape) : Dir → Option (Rat × Rat) :=
  if s.type = ShapeType.line ∨ s.type = ShapeType.arrow ∨
      s.type = ShapeType.text then
    fun _ => none
  else
    let centerX := s.x + s.width / 2
    let centerY := s.y + s.height / 2
    if s.type = ShapeType.circle then
      fun d =>
        match d with
        | Dir.north => some (centerX, s.y)
        | Dir.south => some (centerX, s.y + s.height)
        | Dir.east => some (s.x + s.width, centerY)
        | Dir.west => some (s.x, centerY)
    else
      fun d =>
        match d with
        | Dir.north => some (centerX, s.y)
        | Dir.south => some (centerX, s.y + s.height)
        | Dir.east => some (s.x + s.width, centerY)
        | Dir.west => some (s.x, centerY)

/-- `Shape.getConnectionCoordinates` (lines 92-95): the named anchor, falling
back to the box center when the lookup yields nothing. -/
def getConnectionCoordinates (s : Shape) (d : Dir) : Rat × Rat :=
  (getConnectionPoints s d).getD (s.x + s.width / 2, s.y + s.height / 2)

/-- Resolved start endpoint of a connector, as computed identically in
`drawLine`, `drawArrow` and `containsLine`: when both `startNode` and
`startPoint` are set the coordinate comes from the referenced node, else it
is the literal `(x, y)`.  The heap-miss fallback is unreachable in the
script, where the reference is the object itself. -/
def resolvedStart (heap : List Shape) (s : Shape) : Rat × Rat :=
  match s.startNode, s.startPoint with
  | some nid, some d =>
    match lookupShape heap nid with
    | some n => getConnectionCoordinates n d
    | none => (s.x, s.y)
  | _, _ => (s.x, s.y)

/-- Resolved end endpoint of a connector; the literal fallback is
`(x + width, y + height)`. -/
def resolvedEnd (heap : List Shape) (s : Shape) : Rat × Rat :=
  match s.endNode, s.endPoint with
  | some nid, some d =>
    match lookupShape heap nid with
    | some n => getConnectionCoordinates n d
    | none => (s.x + s.width, s.y + s.height)
  | _, _ => (s.x + s.width, s.y + s.height)

open Classical

/-- `Shape.pointToLineDistance` (lines 266-276): distance from `(px, py)` to
the segment from `(x1, y1)` to `(x2, y2)`, with the projection parameter
clamped to the unit interval and a special case for zero-length segments. -/
noncomputable def pointToLineDistance (px py x1 y1 x2 y2 : ℝ) : ℝ :=
  let dx := x2 - x1
  let dy := y2 - y1
  let length := Real.sqrt (dx * dx + dy * dy)
  if length = 0 then Real.sqrt ((px - x1) ^ 2 + (py - y1) ^ 2)
  else
    let t := max 0 (min 1 (((px - x1) * dx + (py - y1) * dy) /
      (length * length)))
    let projX := x1 + t * dx
    let projY := y1 + t * dy
    Real.sqrt ((px - projX) ^ 2 + (py - projY) ^ 2)

/-- `Shape.containsLine` (lines 241-264): resolve both endpoints, then test
the point-to-segment distance against the literal threshold 8. -/
def containsLine (heap : List Shape) (s : Shape) (x y : Rat) : Prop :=
  pointToLineDistance (x : ℝ) (y : ℝ)
    ((resolvedStart heap s).1 : ℝ) ((resolvedStart heap s).2 : ℝ)
    ((resolvedEnd heap s).1 : ℝ) ((resolvedEnd heap s).2 : ℝ) < 8

/-- `Shape.contains` (lines 222-239).  The text branch measures the rendered
label width through the canvas, an external collaborator, passed in here as
the function `measureWidth`. -/
def contains (heap : List Shape) (measureWidth : String → Rat) (s : Shape)
    (x y : Rat) : Prop :=
  if s.type = ShapeType.line ∨ s.type = ShapeType.arrow then
    containsLine heap s x y
  else if s.type = ShapeType.circle then
    Real.sqrt (((x : ℝ) - ((s.x + s.width / 2 : Rat) : ℝ)) *
        ((x : ℝ) - ((s.x + s.width / 2 : Rat) : ℝ)) +
      ((y : ℝ) - ((s.y + s.height / 2 : Rat) : ℝ)) *
        ((y : ℝ) - ((s.y + s.height / 2 : Rat) : ℝ))) ≤
      ((min s.width s.height / 2 : Rat) : ℝ)
  else if s.type = ShapeType.text then
    x ≥ s.x ∧ x ≤ s.x + measureWidth s.text ∧ y ≥ s.y - 16 ∧ y ≤ s.y + 4
  else
    x ≥ s.x ∧ x ≤ s.x + s.width ∧ y ≥ s.y ∧ y ≤ s.y + s.height

/-- `Shape.findConnectionPoint` (lines 278-294): the first of the four
connection points (in insertion order north, south, east, west) whose
Euclidean distance to the pointer is below the threshold 10; none for line,
arrow and text shapes. -/
noncomputable def findConnectionPoint (s : Shape) (x y : Rat) : Option Dir :=
  if s.type = ShapeType.line ∨ s.type = ShapeType.arrow ∨
      s.type = ShapeType.text then
    none
  else
    [Dir.north, Dir.south, Dir.east, Dir.west].find? fun d =>
      match getConnectionPoints s d with
      | some p =>
        Real.sqrt (((x : ℝ) - (p.1 : ℝ)) ^ 2 + ((y : ℝ) - (p.2 : ℝ)) ^ 2) < 10
      | none => False

/-- The global editor state of the script other than the store: the selected
tool, selection, the gesture flags and the gesture bookkeeping variables. -/
structure EditorState where
  store : Store
  currentTool : ShapeType
  selectedShape : Option Nat
  isDragging : Bool
  isDrawing : Bool
  drawingConnection : Bool
  startX : Rat
  startY : Rat
  dragOffsetX : Rat
  dragOffsetY : Rat
  startConnectionPoint : Option (Nat × Dir)

/-- `handleMouseMove` (lines 363-424) restricted to its effect on the editor
state: when a drag of a selected non-connector shape is in progress the
object under the selection is repositioned to the pointer minus the recorded
offset; every other branch (hover highlighting, preview rubber-band and
outline drawing) only renders and leaves the state unchanged. -/
def handleMouseMove (st : EditorState) (x y : Rat) : EditorState :=
  if st.isDragging then
    match st.selectedShape with
    | some sid =>
      match lookupShape st.store.heap sid with
      | some s =>
        if s.type ≠ ShapeType.line ∧ s.type ≠ ShapeType.arrow then
          { st with
            store := { st.store with
              heap := updateShape st.store.heap sid fun sh =>
                { sh with x := x - st.dragOffsetX, y := y - st.dragOffsetY } } }
        else st
      | none => st
    | none => st
  else st

/-- The loop of the `drawingConnection` branch of `handleMouseUp`
(lines 433-451): scan the shapes array in order for a node shape, other than
the source of the connection, with a connection point near the release
point. -/
noncomputable def releaseTarget : List Shape → Nat → Rat → Rat →
    Option (Nat × Dir)
  | [], _, _, _ => none
  | s :: rest, srcId, x, y =>
    if s.type ≠ ShapeType.line ∧ s.type ≠ ShapeType.arrow ∧
        s.type ≠ ShapeType.text then
      match findConnectionPoint s x y with
      | some d =>
        if s.id ≠ srcId then some (s.id, d)
        else releaseTarget rest srcId x y
      | none => releaseTarget rest srcId x y
    else releaseTarget rest srcId x y

/-- `handleMouseUp` (lines 426-482).  The text prompt is an external
collaborator; its answer is passed in as `promptResult` (none models a
cancelled prompt). -/
noncomputable def handleMouseUp (st : EditorState) (x y : Rat)
    (promptResult : Option String) : EditorState :=
  if st.drawingConnection then
    match st.startConnectionPoint with
    | some (srcId, srcDir) =>
      match releaseTarget (storeShapes st.store) srcId x y with
      | some (tid, d) =>
        { st with
          store := pushShape st.store fun i =>
            { mkShape st.currentTool 0 0 0 0 "" i with
              startNode := some srcId, startPoint := some srcDir
              endNode := some tid, endPoint := some d }
          drawingConnection := false
          startConnectionPoint := none
          isDragging := false }
      | none =>
        { st with drawingConnection := false, startConnectionPoint := none
                  isDragging := false }
    | none =>
      { st with drawingConnection := false, startConnectionPoint := none
                isDragging := false }
  else if st.isDrawing then
    let width := x - st.startX
    let height := y - st.startY
    if st.currentTool = ShapeType.text then
      match promptResult with
      | some t =>
        if t ≠ "" then
          { st with
            store := pushShape st.store
              (mkShape ShapeType.text st.startX st.startY 0 0 t)
            isDrawing := false, isDragging := false }
        else { st with isDrawing := false, isDragging := false }
      | none => { st with isDrawing := false, isDragging := false }
    else if st.currentTool = ShapeType.line ∨
        st.currentTool = ShapeType.arrow then
      { st with
        store := pushShape st.store
          (mkShape st.currentTool st.startX st.startY (x - st.startX)
            (y - st.startY) "")
        isDrawing := false, isDragging := false }
    else if |width| > 5 ∧ |height| > 5 then
      { st with
        store := pushShape st.store
          (mkShape st.currentTool (min st.startX x) (min st.startY y)
            |width| |height| "")
        isDrawing := false, isDragging := false }
    else { st with isDrawing := false, isDragging := false }
  else { st with isDragging := false }

/-- `deleteSelectedShape` (lines 561-569): filter the selected object out of
the shapes array and clear the selection.  The heap (the object graph) is
untouched: nothing rewrites the connectors that reference the object. -/
def deleteSelectedShape (st : EditorState) : EditorState :=
  match st.selectedShape with
  | some sid =>
    { st with
      store := { st.store with arr := st.store.arr.filter fun i => i ≠ sid }
      selectedShape := none }
  | none => st

/-- The Backspace keydown handler (lines 660-667): the same filter as
`deleteSelectedShape`. -/
def backspaceKeydown (st : EditorState) : EditorState :=
  match st.selectedShape with
  | some sid =>
    { st with
      store := { st.store with arr := st.store.arr.filter fun i => i ≠ sid }
      selectedShape := none }
  | none => st

/-- Helper for the JavaScript string replace with a one-character pattern:
drop the first occurrence of the hash character. -/
def removeFirstHashAux : List Char → List Char
  | [] => []
  | c :: cs => if c = '#' then cs else c :: removeFirstHashAux cs

/-- `color.replace('#', '')` as used by both serializers. -/
def replaceFirstHash (s : String) : String :=
  String.mk (removeFirstHashAux s.data)

/-- Concatenation of a list of strings, for relating the `forEach` string
accumulation loops to the lists of lines they append. -/
def concatStrings : List String → String
  | [] => ""
  | s :: rest => s ++ concatStrings rest

/-- The edge declarations emitted by the `edges.forEach` loop of
`updateDOTPreview` (lines 604-610), as a list of lines: one line per
connector in the shapes array whose `startNode` and `endNode` references are
both non-null, with the directed operator for arrows and the undirected
operator for lines.  Note that the loop reads `edge.startNode.id` directly
off the referenced object and never checks that the object is still in the
shapes array. -/
def dotEdgeLines (store : Store) : List String :=
  let edges := (storeShapes store).filter fun s =>
    s.type = ShapeType.arrow ∨ s.type = ShapeType.line
  edges.filterMap fun edge =>
    match edge.startNode, edge.endNode with
    | some sid, some eid =>
      let edgeOp := if edge.type = ShapeType.arrow then "->" else "--"
      let strokeColor := replaceFirstHash edge.strokeColor
      some ("  node" ++ toString sid ++ " " ++ edgeOp ++ " node" ++
        toString eid ++ " [color=\"#" ++ strokeColor ++ "\", penwidth=" ++
        toString edge.lineWidth ++ "];\n")
    | _, _ => none

/-- The DOT text computed by `updateDOTPreview` (lines 581-615) and assigned
to the preview element, as a function of the shape store. -/
def updateDOTPreviewText (store : Store) : String :=
  let shapes := storeShapes store
  let nodes := shapes.filter fun s =>
    s.type = ShapeType.circle ∨ s.type = ShapeType.rectangle
  let edges := shapes.filter fun s =>
    s.type = ShapeType.arrow ∨ s.type = ShapeType.line
  let dot := "digraph G \x7b\n"
  let dot := dot ++ "  node [shape=record];\n"
  let dot := dot ++ "  rankdir=TB;\n\n"
  let dot := nodes.foldl (fun dot shape =>
    let label := if shape.text = "" then "node" ++ toString shape.id
      else shape.text
    let shapeType := if shape.type = ShapeType.circle then "ellipse"
      else "box"
    let fillColor := replaceFirstHash shape.fillColor
    let strokeColor := replaceFirstHash shape.strokeColor
    dot ++ ("  node" ++ toString shape.id ++ " [label=\"" ++ label ++
      "\", shape=" ++ shapeType ++ ", style=filled, fillcolor=\"#" ++
      fillColor ++ "\", color=\"#" ++ strokeColor ++ "\", penwidth=" ++
      toString shape.lineWidth ++ "];\n")) dot
  let dot := dot ++ "\n"
  let dot := edges.foldl (fun dot edge =>
    match edge.startNode, edge.endNode with
    | some sid, some eid =>
      let edgeOp := if edge.type = ShapeType.arrow then "->" else "--"
      let strokeColor := replaceFirstHash edge.strokeColor
      dot ++ ("  node" ++ toString sid ++ " " ++ edgeOp ++ " node" ++
        toString eid ++ " [color=\"#" ++ strokeColor ++ "\", penwidth=" ++
        toString edge.lineWidth ++ "];\n")
    | _, _ => dot) dot
  dot ++ "\x7d\n"

/-- The DOT text built and downloaded by `exportToDOT` (lines 617-657), as a
function of the shape store; the function body duplicates the preview
serializer line for line. -/
def exportToDOTText (store : Store) : String :=
  let shapes := storeShapes store
  let nodes := shapes.filter fun s =>
    s.type = ShapeType.circle ∨ s.type = ShapeType.rectangle
  let edges := shapes.filter fun s =>
    s.type = ShapeType.arrow ∨ s.type = ShapeType.line
  let dot := "digraph G \x7b\n"
  let dot := dot ++ "  node [shape=record];\n"
  let dot := dot ++ "  rankdir=TB;\n\n"
  let dot := nodes.foldl (fun dot shape =>
    let label := if shape.text = "" then "node" ++ toString shape.id
      else shape.text
    let shapeType := if shape.type = ShapeType.circle then "ellipse"
      else "box"
    let fillColor := replaceFirstHash shape.fillColor
    let strokeColor := replaceFirstHash shape.strokeColor
    dot ++ ("  node" ++ toString shape.id ++ " [label=\"" ++ label ++
      "\", shape=" ++ shapeType ++ ", style=filled, fillcolor=\"#" ++
      fillColor ++ "\", color=\"#" ++ strokeColor ++ "\", penwidth=" ++
      toString shape.lineWidth ++ "];\n")) dot
  let dot := dot ++ "\n"
  let dot := edges.foldl (fun dot edge =>
    match edge.startNode, edge.endNode with
    | some sid, some eid =>
      let edgeOp := if edge.type = ShapeType.arrow then "->" else "--"
      let strokeColor := replaceFirstHash edge.strokeColor
      dot ++ ("  node" ++ toString sid ++ " " ++ edgeOp ++ " node" ++
        toString eid ++ " [color=\"#" ++ strokeColor ++ "\", penwidth=" ++
        toString edge.lineWidth ++ "];\n")
    | _, _ => dot) dot
  dot ++ "\x7d\n"

/-! Concrete states used by witnesses and counterexamples. -/

/-- The empty shape store at the start of a session. -/
def emptyStore : Store := { heap := [], arr := [], nextId := 1 }

/-- A rectangle node used by the anchor witness, at (0, 0) with width 100 and
height 40. -/
def rectNode : Shape := mkShape ShapeType.rectangle 0 0 100 40 "" 1

/-- C4: for every node shape (rectangle or circle kind) the anchor query
returns exactly four anchors at the edge midpoints of the bounding box, with
the same rule for rectangle and circle kinds, and in particular a rectangle
at (0,0,100,40) has north=(50,0), south=(50,40), east=(100,20), west=(0,20). -/
theorem anchor_points_spec (s : Shape)
    (hs : s.type = ShapeType.rectangle ∨ s.type = ShapeType.circle) :
    (getConnectionPoints s Dir.north = some (s.x + s.width / 2, s.y)
      ∧ getConnectionPoints s Dir.south =
          some (s.x + s.width / 2, s.y + s.height)
      ∧ getConnectionPoints s Dir.east =
          some (s.x + s.width, s.y + s.height / 2)
      ∧ getConnectionPoints s Dir.west = some (s.x, s.y + s.height / 2))
    ∧ (getConnectionPoints rectNode Dir.north = some (50, 0)
      ∧ getConnectionPoints rectNode Dir.south = some (50, 40)
      ∧ getConnectionPoints rectNode Dir.east = some (100, 20)
      ∧ getConnectionPoints rectNode Dir.west = some (0, 20)) := by
  constructor
  · rcases hs with h | h <;>
      refine ⟨?_, ?_, ?_, ?_⟩ <;> simp [getConnectionPoints, h]
  · refine ⟨?_, ?_, ?_, ?_⟩ <;>
      · norm_num [getConnectionPoints, rectNode, mkShape]
        decide

/-- Witness for C4 at the concrete rectangle (0,0,100,40). -/
theorem anchor_points_spec_witness :
    (getConnectionPoints rectNode Dir.north =
        some (rectNode.x + rectNode.width / 2, rectNode.y)
      ∧ getConnectionPoints rectNode Dir.south =
          some (rectNode.x + rectNode.width / 2, rectNode.y + rectNode.height)
      ∧ getConnectionPoints rectNode Dir.east =
          some (rectNode.x + rectNode.width, rectNode.y + rectNode.height / 2)
      ∧ getConnectionPoints rectNode Dir.west =
          some (rectNode.x, rectNode.y + rectNode.height / 2))
    ∧ (getConnectionPoints rectNode Dir.north = some (50, 0)
      ∧ getConnectionPoints rectNode Dir.south = some (50, 40)
      ∧ getConnectionPoints rectNode Dir.east = some (100, 20)
      ∧ getConnectionPoints rectNode Dir.west = some (0, 20)) :=
  anchor_points_spec rectNode (Or.inl rfl)

/-- An editor state in the middle of a rectangle-tool drawing gesture. -/
def drawingState : EditorState :=
  { store := emptyStore, currentTool := ShapeType.rectangle
    selectedShape := none, isDragging := false, isDrawing := true
    drawingConnection := false, startX := 10, startY := 10
    dragOffsetX := 0, dragOffsetY := 0, startConnectionPoint := none }

/-- C9: a pointer-move received while a new-shape or connection gesture is in
progress (the drawing or connecting flag is set and, the gesture states being
mutually exclusive, no shape drag is active) leaves the shape store entirely
unchanged: the move only renders a preview. -/
theorem preview_move_no_store_mutation (st : EditorState) (x y : Rat)
    (hgesture : st.isDrawing = true ∨ st.drawingConnection = true)
    (hd : st.isDragging = false) :
    (handleMouseMove st x y).store = st.store := by
  clear hgesture
  simp [handleMouseMove, hd]

/-- Witness for C9: a pointer-move in the middle of a drawing gesture. -/
theorem preview_move_no_store_mutation_witness :
    (handleMouseMove drawingState 20 30).store = drawingState.store :=
  preview_move_no_store_mutation drawingState 20 30 (Or.inl rfl) rfl

/-- C10: the live-preview serializer and the export serializer produce
exactly the same document text over the same shapes. -/
theorem preview_export_agree (store : Store) :
    updateDOTPreviewText store = exportToDOTText store := rfl

/-- C8: serialization is a pure total function of the store state; it
produces a document on the empty store, and two serializations of the same
unmutated store state are identical. -/
theorem serializer_total_deterministic :
    updateDOTPreviewText emptyStore =
      "digraph G \x7b\n  node [shape=record];\n  rankdir=TB;\n\n\n\x7d\n"
    ∧ ∀ s t : Store, s = t →
        updateDOTPreviewText s = updateDOTPreviewText t := by
  refine ⟨by decide, ?_⟩
  intro s t h
  rw [h]

/-- Witness for C8 at the empty store. -/
theorem serializer_total_deterministic_witness :
    updateDOTPreviewText emptyStore = updateDOTPreviewText emptyStore :=
  serializer_total_deterministic.2 emptyStore emptyStore rfl

/-- A rectangle node with id 1 for the deletion scenario. -/
def nodeA : Shape := mkShape ShapeType.rectangle 0 0 10 10 "" 1

/-- A rectangle node with id 2 for the deletion scenario. -/
def nodeB : Shape := mkShape ShapeType.rectangle 20 0 10 10 "" 2

/-- A connector bound from the east anchor of `nodeA` to the west anchor of
`nodeB`, as committed by the connection branch of `handleMouseUp`. -/
def connAB : Shape :=
  { mkShape ShapeType.line 0 0 0 0 "" 3 with
    startNode := some 1, startPoint := some Dir.east
    endNode := some 2, endPoint := some Dir.west }

/-- An editor state holding both nodes and the bound connector, with the
node `nodeA` selected. -/
def deleteState : EditorState :=
  { store := { heap := [nodeA, nodeB, connAB], arr := [1, 2, 3], nextId := 4 }
    currentTool := ShapeType.select, selectedShape := some 1
    isDragging := false, isDrawing := false, drawingConnection := false
    startX := 0, startY := 0, dragOffsetX := 0, dragOffsetY := 0
    startConnectionPoint := none }

/-- Counterexample to C1: deleting node 1, which the bound connector 3
references as its start, leaves the connector in the store with
`startNode` still set to 1 and the literal endpoint fields untouched at
their construction values, while node 1 is no longer in the shapes array.
The connector is left dangling instead of having its references cleared. -/
theorem delete_cascade_counterexample :
    (deleteSelectedShape deleteState).store.arr = [2, 3]
    ∧ lookupShape (deleteSelectedShape deleteState).store.heap 3 = some connAB
    ∧ connAB.startNode = some 1
    ∧ connAB.x = 0 ∧ connAB.y = 0 ∧ connAB.width = 0 ∧ connAB.height = 0
    ∧ resolvedStart deleteState.store.heap connAB ≠ (0, 0)
    ∧ ¬ 1 ∈ (deleteSelectedShape deleteState).store.arr := by
  refine ⟨by decide, by decide, by decide, by decide, by decide, by decide,
    by decide, ?_, by decide⟩
  norm_num [resolvedStart, deleteState, connAB, nodeA, nodeB, mkShape,
    lookupShape, getConnectionCoordinates, getConnectionPoints]
  decide

/-- C1 amended: deleting a shape (by the property-editor button or the
Backspace key) only filters that shape out of the shapes array and clears
the selection; the object heap is untouched, so a connector bound to the
deleted node keeps both node references and all of its other fields
unchanged, now referencing a shape that is no longer in the store. -/
theorem delete_no_cascade (st : EditorState) (sid : Nat)
    (hsel : st.selectedShape = some sid) :
    (deleteSelectedShape st).store.arr = st.store.arr.filter (fun i => i ≠ sid)
    ∧ (deleteSelectedShape st).store.heap = st.store.heap
    ∧ (deleteSelectedShape st).store.nextId = st.store.nextId
    ∧ (deleteSelectedShape st).selectedShape = none
    ∧ backspaceKeydown st = deleteSelectedShape st := by
  refine ⟨?_, ?_, ?_, ?_, ?_⟩ <;>
    simp [deleteSelectedShape, backspaceKeydown, hsel]

/-- Witness for the amended C1 at the concrete deletion scenario. -/
theorem delete_no_cascade_witness :
    (deleteSelectedShape deleteState).store.arr =
      deleteState.store.arr.filter (fun i => i ≠ 1)
    ∧ (deleteSelectedShape deleteState).store.heap = deleteState.store.heap
    ∧ (deleteSelectedShape deleteState).store.nextId =
        deleteState.store.nextId
    ∧ (deleteSelectedShape deleteState).selectedShape = none
    ∧ backspaceKeydown deleteState = deleteSelectedShape deleteState :=
  delete_no_cascade deleteState 1 rfl

/-- An unbound line from (0,0) to (10,10), selected and being dragged with
the select tool; the pointer went down at (1,1), so the recorded drag offset
is (1,1). -/
def freeLine : Shape := mkShape ShapeType.line 0 0 10 10 "" 1

/-- The editor state mid-drag of the unbound connector `freeLine`. -/
def dragLineState : EditorState :=
  { store := { heap := [freeLine], arr := [1], nextId := 2 }
    currentTool := ShapeType.select, selectedShape := some 1
    isDragging := true, isDrawing := false, drawingConnection := false
    startX := 1, startY := 1, dragOffsetX := 1, dragOffsetY := 1
    startConnectionPoint := none }

/-- Counterexample to C2: with the unbound connector selected and dragged,
moving the pointer from (1,1) to (6,6) – a delta of (5,5) – leaves the store
completely unchanged, so the resolved endpoints stay at (0,0) and (10,10)
instead of translating by the pointer delta. -/
theorem connector_drag_counterexample :
    (handleMouseMove dragLineState 6 6).store = dragLineState.store
    ∧ resolvedStart (handleMouseMove dragLineState 6 6).store.heap freeLine
        = (0, 0)
    ∧ resolvedEnd (handleMouseMove dragLineState 6 6).store.heap freeLine
        = (10, 10)
    ∧ ((6 : Rat) - 1, (6 : Rat) - 1) ≠ ((0 : Rat), (0 : Rat))
    ∧ ((0 : Rat) + (6 - 1), (0 : Rat) + (6 - 1)) ≠ ((0 : Rat), (0 : Rat)) := by
  have hmove : handleMouseMove dragLineState 6 6 = dragLineState := by
    simp [handleMouseMove, dragLineState, lookupShape, freeLine, mkShape]
  refine ⟨by rw [hmove], ?_, ?_, by norm_num, by norm_num⟩ <;>
    · rw [hmove]
      norm_num [resolvedStart, resolvedEnd, freeLine, mkShape]

/-- C2 amended: a pointer-move during a select-tool drag whose selected
shape is a connector (line or arrow) leaves the store entirely unchanged;
the code only repositions non-connector shapes, so connectors cannot be
moved by dragging. -/
theorem connector_drag_leaves_store (st : EditorState) (x y : Rat)
    (cid : Nat) (c : Shape)
    (hdrag : st.isDragging = true) (hsel : st.selectedShape = some cid)
    (hc : lookupShape st.store.heap cid = some c)
    (ht : c.type = ShapeType.line ∨ c.type = ShapeType.arrow) :
    (handleMouseMove st x y).store = st.store := by
  rcases ht with h | h <;> simp [handleMouseMove, hdrag, hsel, hc, h]

/-- Witness for the amended C2 at the concrete dragged connector. -/
theorem connector_drag_leaves_store_witness :
    (handleMouseMove dragLineState 6 6).store = dragLineState.store :=
  connector_drag_leaves_store dragLineState 6 6 1 freeLine rfl rfl
    (by decide) (Or.inl rfl)

/-- C6: on pointer-up of a rectangle- or circle-tool drag from
(startX, startY) to (x, y), a new node is committed exactly when both
|x-startX| > 5 and |y-startY| > 5; the committed shape is normalized to the
positive box anchored at the min corner with the next fresh id, and a
sub-threshold drag leaves the store entirely unchanged (and, the function
being total, raises no error). -/
theorem node_commit_threshold (st : EditorState) (x y : Rat)
    (pr : Option String)
    (htool : st.currentTool = ShapeType.rectangle ∨
      st.currentTool = ShapeType.circle)
    (hdraw : st.isDrawing = true) (hconn : st.drawingConnection = false) :
    ((|x - st.startX| > 5 ∧ |y - st.startY| > 5) →
      (handleMouseUp st x y pr).store.heap = st.store.heap ++
          [mkShape st.currentTool (min st.startX x) (min st.startY y)
            |x - st.startX| |y - st.startY| "" st.store.nextId]
        ∧ (handleMouseUp st x y pr).store.arr =
            st.store.arr ++ [st.store.nextId]
        ∧ (handleMouseUp st x y pr).store.nextId = st.store.nextId + 1)
    ∧ (¬(|x - st.startX| > 5 ∧ |y - st.startY| > 5) →
      (handleMouseUp st x y pr).store = st.store) := by
  have hne : ∀ t : ShapeType, t = ShapeType.rectangle ∨ t = ShapeType.circle →
      ¬t = ShapeType.text ∧ ¬(t = ShapeType.line ∨ t = ShapeType.arrow) := by
    intro t h
    rcases h with h | h <;> subst h <;> exact ⟨by decide, by decide⟩
  obtain ⟨h1, h2⟩ := hne st.currentTool htool
  constructor
  · intro hbig
    rw [handleMouseUp.eq_def]
    simp only [hconn, hdraw, Bool.false_eq_true, if_false, if_true,
      if_neg h1, if_neg h2, if_pos hbig]
    exact ⟨rfl, rfl, rfl⟩
  · intro hsmall
    rw [handleMouseUp.eq_def]
    simp only [hconn, hdraw, Bool.false_eq_true, if_false, if_true,
      if_neg h1, if_neg h2, if_neg hsmall]

/-- An editor state mid rectangle-tool gesture started at (10, 10), used for
the sub-threshold discard scenario of the specification. -/
def subThresholdState : EditorState :=
  { store := { heap := [nodeA], arr := [1], nextId := 2 }
    currentTool := ShapeType.rectangle
    selectedShape := none, isDragging := false, isDrawing := true
    drawingConnection := false, startX := 10, startY := 10
    dragOffsetX := 0, dragOffsetY := 0, startConnectionPoint := none }

/-- Witness for C6: the rectangle-tool drag from (10,10) to (12,11) is below
threshold, so the store is unchanged. -/
theorem node_commit_threshold_witness :
    ((|(12 : Rat) - subThresholdState.startX| > 5 ∧
        |(11 : Rat) - subThresholdState.startY| > 5) →
      (handleMouseUp subThresholdState 12 11 none).store.heap =
          subThresholdState.store.heap ++
          [mkShape subThresholdState.currentTool
            (min subThresholdState.startX 12) (min subThresholdState.startY 11)
            |(12 : Rat) - subThresholdState.startX|
            |(11 : Rat) - subThresholdState.startY| ""
            subThresholdState.store.nextId]
        ∧ (handleMouseUp subThresholdState 12 11 none).store.arr =
            subThresholdState.store.arr ++ [subThresholdState.store.nextId]
        ∧ (handleMouseUp subThresholdState 12 11 none).store.nextId =
            subThresholdState.store.nextId + 1)
    ∧ (¬(|(12 : Rat) - subThresholdState.startX| > 5 ∧
        |(11 : Rat) - subThresholdState.startY| > 5) →
      (handleMouseUp subThresholdState 12 11 none).store =
        subThresholdState.store) :=
  node_commit_threshold subThresholdState 12 11 none (Or.inl rfl) rfl rfl

/-- A successful heap lookup returns an object carrying the looked-up id. -/
lemma lookupShape_id (heap : List Shape) (k : Nat) (s : Shape)
    (h : lookupShape heap k = some s) : s.id = k := by
  induction heap with
  | nil => simp [lookupShape] at h
  | cons a t ih =>
    simp only [lookupShape, List.find?_cons] at h ih
    by_cases ha : a.id = k
    · simp [ha] at h
      rw [← h]
      exact ha
    · simp [ha] at h
      exact ih h

/-- Heap lookup after an id-preserving in-place mutation: the found object is
the mutated one. -/
lemma lookupShape_updateShape (heap : List Shape) (nid k : Nat)
    (f : Shape → Shape) (hf : ∀ s : Shape, (f s).id = s.id) :
    lookupShape (updateShape heap nid f) k =
      (lookupShape heap k).map fun s => if s.id = nid then f s else s := by
  induction heap with
  | nil => rfl
  | cons s t ih =>
    have hstep : lookupShape (updateShape (s :: t) nid f) k =
        (if (if s.id = nid then f s else s).id = k
          then some (if s.id = nid then f s else s)
          else lookupShape (updateShape t nid f) k) := by
      simp only [lookupShape, updateShape, List.map_cons, List.find?_cons]
      split_ifs with h1 h2 <;> simp_all
    have hstep2 : lookupShape (s :: t) k =
        (if s.id = k then some s else lookupShape t k) := by
      simp only [lookupShape, List.find?_cons]
      split_ifs with h <;> simp_all
    rw [hstep, hstep2]
    by_cases hn : s.id = nid
    · by_cases hk : s.id = k <;> by_cases hnk : nid = k <;> simp_all
    · by_cases hk : s.id = k <;> by_cases hnk : nid = k <;> simp_all

/-- A connection coordinate translates exactly with the node: if one shape is
another with its position translated by (dx, dy) and all other geometry
equal, then every connection coordinate translates by (dx, dy). -/
lemma getConnectionCoordinates_translate (m n : Shape) (dx dy : Rat)
    (d : Dir) (htp : m.type = n.type) (hx : m.x = n.x + dx)
    (hy : m.y = n.y + dy) (hw : m.width = n.width)
    (hh : m.height = n.height) :
    getConnectionCoordinates m d =
      ((getConnectionCoordinates n d).1 + dx,
       (getConnectionCoordinates n d).2 + dy) := by
  unfold getConnectionCoordinates getConnectionPoints
  rw [htp, hx, hy, hw, hh]
  split_ifs <;> cases d <;> simp <;> ring_nf <;> constructor <;> ring

/-- C3: with a node selected and being dragged, a pointer-move translates the
node by (dx, dy) = (new position minus old position), and the resolved
coordinate of every connector endpoint bound to an anchor of that node –
whether it is the start endpoint (`startNode`/`startPoint`) or the end
endpoint (`endNode`/`endPoint`) – translates by exactly the same (dx, dy);
the connector object itself (all of its stored fields) is not mutated. -/
theorem bound_endpoint_live_resolution (st : EditorState) (px py : Rat)
    (nid : Nat) (n : Shape) (c : Shape)
    (hdrag : st.isDragging = true)
    (hsel : st.selectedShape = some nid)
    (hn : lookupShape st.store.heap nid = some n)
    (hnt : ¬(n.type = ShapeType.line ∨ n.type = ShapeType.arrow))
    (hcid : c.id ≠ nid) :
    (∀ d : Dir, c.startNode = some nid → c.startPoint = some d →
      resolvedStart (handleMouseMove st px py).store.heap c =
        ((resolvedStart st.store.heap c).1 + ((px - st.dragOffsetX) - n.x),
         (resolvedStart st.store.heap c).2 + ((py - st.dragOffsetY) - n.y)))
    ∧ (∀ d : Dir, c.endNode = some nid → c.endPoint = some d →
      resolvedEnd (handleMouseMove st px py).store.heap c =
        ((resolvedEnd st.store.heap c).1 + ((px - st.dragOffsetX) - n.x),
         (resolvedEnd st.store.heap c).2 + ((py - st.dragOffsetY) - n.y)))
    ∧ lookupShape (handleMouseMove st px py).store.heap c.id =
        lookupShape st.store.heap c.id := by
  have hnid : n.id = nid := lookupShape_id _ _ _ hn
  have hmove : (handleMouseMove st px py).store.heap =
      updateShape st.store.heap nid fun sh =>
        { sh with x := px - st.dragOffsetX, y := py - st.dragOffsetY } := by
    rw [handleMouseMove.eq_def]
    simp only [hdrag, hsel, hn, if_true]
    rw [if_pos]
    push_neg at hnt
    exact ⟨hnt.1, hnt.2⟩
  have hf : ∀ s : Shape,
      (({ s with x := px - st.dragOffsetX, y := py - st.dragOffsetY } :
        Shape)).id = s.id := fun _ => rfl
  have hlook : lookupShape (updateShape st.store.heap nid fun sh =>
      { sh with x := px - st.dragOffsetX, y := py - st.dragOffsetY }) nid =
      some { n with x := px - st.dragOffsetX, y := py - st.dragOffsetY } := by
    rw [lookupShape_updateShape _ _ _ _ hf, hn]
    simp [hnid]
  refine ⟨?_, ?_, ?_⟩
  · intro d hcs hcp
    rw [hmove]
    rw [resolvedStart.eq_def, resolvedStart.eq_def]
    simp only [hcs, hcp, hlook, hn]
    exact getConnectionCoordinates_translate _ n _ _ d rfl (by ring)
      (by ring) rfl rfl
  · intro d hce hcp
    rw [hmove]
    rw [resolvedEnd.eq_def, resolvedEnd.eq_def]
    simp only [hce, hcp, hlook, hn]
    exact getConnectionCoordinates_translate _ n _ _ d rfl (by ring)
      (by ring) rfl rfl
  · rw [hmove, lookupShape_updateShape _ _ _ _ hf]
    cases hl : lookupShape st.store.heap c.id with
    | none => rfl
    | some s =>
      have hsid : s.id = c.id := lookupShape_id _ _ _ hl
      simp [hsid, hcid]

/-- An editor state dragging node 1 (a rectangle at (0,0,10,10)) with zero
drag offset; the heap also holds node 2 and the connector `connAB`, whose
start endpoint is bound to the east anchor of the dragged node 1 and whose
end endpoint is bound to the west anchor of node 2. -/
def dragNodeState : EditorState :=
  { store := { heap := [nodeA, nodeB, connAB], arr := [1, 2, 3], nextId := 4 }
    currentTool := ShapeType.select, selectedShape := some 1
    isDragging := true, isDrawing := false, drawingConnection := false
    startX := 0, startY := 0, dragOffsetX := 0, dragOffsetY := 0
    startConnectionPoint := none }

/-- Witness for C3: dragging node 1 to pointer (3,4) translates the bound
start endpoint of connector 3 by exactly (3,4) (the end endpoint, bound to
node 2, is covered by the second conjunct) and leaves the connector object
unchanged. -/
theorem bound_endpoint_live_resolution_witness :
    (∀ d : Dir, connAB.startNode = some 1 → connAB.startPoint = some d →
      resolvedStart (handleMouseMove dragNodeState 3 4).store.heap connAB =
        ((resolvedStart dragNodeState.store.heap connAB).1 +
          ((3 - dragNodeState.dragOffsetX) - nodeA.x),
         (resolvedStart dragNodeState.store.heap connAB).2 +
          ((4 - dragNodeState.dragOffsetY) - nodeA.y)))
    ∧ (∀ d : Dir, connAB.endNode = some 1 → connAB.endPoint = some d →
      resolvedEnd (handleMouseMove dragNodeState 3 4).store.heap connAB =
        ((resolvedEnd dragNodeState.store.heap connAB).1 +
          ((3 - dragNodeState.dragOffsetX) - nodeA.x),
         (resolvedEnd dragNodeState.store.heap connAB).2 +
          ((4 - dragNodeState.dragOffsetY) - nodeA.y)))
    ∧ lookupShape (handleMouseMove dragNodeState 3 4).store.heap connAB.id
        = lookupShape dragNodeState.store.heap connAB.id :=
  bound_endpoint_live_resolution dragNodeState 3 4 1 nodeA connAB
    rfl rfl (by decide) (by decide) (by decide)

/-- The edge declaration line for a connector whose two node references are
set, written with the references read off directly (the default 0 is dead
when both references are non-null). -/
def dotEdgeDecl (edge : Shape) : String :=
  "  node" ++ toString (edge.startNode.getD 0) ++ " " ++
    (if edge.type = ShapeType.arrow then "->" else "--") ++ " node" ++
    toString (edge.endNode.getD 0) ++ " [color=\"#" ++
    replaceFirstHash edge.strokeColor ++ "\", penwidth=" ++
    toString edge.lineWidth ++ "];\n"

/-- The header, node declarations and separating blank line of the preview
document: everything `updateDOTPreview` accumulates before the edge loop. -/
def dotNodeSection (store : Store) : String :=
  let shapes := storeShapes store
  let nodes := shapes.filter fun s =>
    s.type = ShapeType.circle ∨ s.type = ShapeType.rectangle
  let dot := "digraph G \x7b\n"
  let dot := dot ++ "  node [shape=record];\n"
  let dot := dot ++ "  rankdir=TB;\n\n"
  let dot := nodes.foldl (fun dot shape =>
    let label := if shape.text = "" then "node" ++ toString shape.id
      else shape.text
    let shapeType := if shape.type = ShapeType.circle then "ellipse"
      else "box"
    let fillColor := replaceFirstHash shape.fillColor
    let strokeColor := replaceFirstHash shape.strokeColor
    dot ++ ("  node" ++ toString shape.id ++ " [label=\"" ++ label ++
      "\", shape=" ++ shapeType ++ ", style=filled, fillcolor=\"#" ++
      fillColor ++ "\", color=\"#" ++ strokeColor ++ "\", penwidth=" ++
      toString shape.lineWidth ++ "];\n")) dot
  dot ++ "\n"

/-- The edge lines of a list of connectors are exactly the declarations of
those connectors with both node references set, in order. -/
lemma edge_filterMap_eq (l : List Shape) :
    (l.filterMap fun edge =>
      match edge.startNode, edge.endNode with
      | some sid, some eid =>
        let edgeOp := if edge.type = ShapeType.arrow then "->" else "--"
        let strokeColor := replaceFirstHash edge.strokeColor
        some ("  node" ++ toString sid ++ " " ++ edgeOp ++ " node" ++
          toString eid ++ " [color=\"#" ++ strokeColor ++ "\", penwidth=" ++
          toString edge.lineWidth ++ "];\n")
      | _, _ => none)
    = (l.filter fun s => s.startNode.isSome ∧ s.endNode.isSome).map
        dotEdgeDecl := by
  induction l with
  | nil => rfl
  | cons a t ih =>
    rcases ha : a.startNode with _ | sid <;> rcases hb : a.endNode with _ | eid <;>
      simp [List.filterMap_cons, List.filter_cons, ha, hb, ih, dotEdgeDecl]

/-- Filtering by the connector-type test and then by the reference test is
the single conjunctive filter. -/
lemma filter_filter_eq (l : List Shape) :
    ((l.filter fun s =>
      s.type = ShapeType.arrow ∨ s.type = ShapeType.line).filter fun s =>
        s.startNode.isSome ∧ s.endNode.isSome)
    = l.filter fun s => (s.type = ShapeType.arrow ∨ s.type = ShapeType.line)
        ∧ s.startNode.isSome ∧ s.endNode.isSome := by
  rw [List.filter_filter]
  congr 1
  funext s
  rcases h : s.startNode with _ | sid <;>
    rcases h2 : s.endNode with _ | eid <;>
      by_cases h3 : s.type = ShapeType.arrow ∨ s.type = ShapeType.line <;>
        simp [h, h2, h3]

/-- The edge accumulation loop appends exactly the concatenation of the edge
lines to whatever prefix has been accumulated so far. -/
lemma edge_foldl_eq (l : List Shape) (init : String) :
    (l.foldl (fun dot edge =>
      match edge.startNode, edge.endNode with
      | some sid, some eid =>
        let edgeOp := if edge.type = ShapeType.arrow then "->" else "--"
        let strokeColor := replaceFirstHash edge.strokeColor
        dot ++ ("  node" ++ toString sid ++ " " ++ edgeOp ++ " node" ++
          toString eid ++ " [color=\"#" ++ strokeColor ++ "\", penwidth=" ++
          toString edge.lineWidth ++ "];\n")
      | _, _ => dot) init)
    = init ++ concatStrings (l.filterMap fun edge =>
        match edge.startNode, edge.endNode with
        | some sid, some eid =>
          let edgeOp := if edge.type = ShapeType.arrow then "->" else "--"
          let strokeColor := replaceFirstHash edge.strokeColor
          some ("  node" ++ toString sid ++ " " ++ edgeOp ++ " node" ++
            toString eid ++ " [color=\"#" ++ strokeColor ++ "\", penwidth=" ++
            toString edge.lineWidth ++ "];\n")
        | _, _ => none) := by
  induction l generalizing init with
  | nil => simp [concatStrings, String.append_empty]
  | cons a t ih =>
    rcases ha : a.startNode with _ | sid <;>
      rcases hb : a.endNode with _ | eid <;>
      · simp only [List.foldl_cons, List.filterMap_cons, ha, hb]
        rw [ih]
        try simp only [concatStrings, String.append_assoc]

/-- C7 amended: the serialized edge list contains one declaration, in store
order, per connector whose `startNode` and `endNode` references are both
non-null – whether or not the referenced nodes are still in the store – with
the directed operator for arrow kind and the undirected operator for line
kind; every connector with a null node reference is omitted.  The preview
document is the node section followed by exactly these lines and the
closing brace. -/
theorem dot_edge_lines_spec (store : Store) :
    dotEdgeLines store =
      ((storeShapes store).filter fun s =>
        (s.type = ShapeType.arrow ∨ s.type = ShapeType.line)
          ∧ s.startNode.isSome ∧ s.endNode.isSome).map dotEdgeDecl
    ∧ updateDOTPreviewText store =
        dotNodeSection store ++ concatStrings (dotEdgeLines store) ++
          "\x7d\n" := by
  constructor
  · rw [dotEdgeLines, edge_filterMap_eq, filter_filter_eq]
  · rw [updateDOTPreviewText, dotNodeSection, dotEdgeLines]
    rw [edge_foldl_eq, String.append_assoc]

/-- An arrow connector whose start reference points at node 1, which has
been removed from the shapes array. -/
def danglingConn : Shape :=
  { mkShape ShapeType.arrow 0 0 0 0 "" 3 with
    startNode := some 1, startPoint := some Dir.east
    endNode := some 2, endPoint := some Dir.west }

/-- A store in which node 1 was deleted: it is gone from the shapes array,
but the connector still references it. -/
def danglingStore : Store :=
  { heap := [nodeA, nodeB, danglingConn], arr := [2, 3], nextId := 4 }

/-- Counterexample to C7: the connector whose start reference names the
deleted node 1 – a node that does not exist in the store – still produces an
edge declaration naming node1, so the edge list is not restricted to
connectors whose both endpoints are bound to existing nodes. -/
theorem serialize_edges_counterexample :
    dotEdgeLines danglingStore =
      ["  node1 -> node2 [color=\"#000000\", penwidth=2];\n"]
    ∧ danglingConn ∈ storeShapes danglingStore
    ∧ danglingConn.startNode = some 1
    ∧ ∀ i ∈ danglingStore.arr, i ≠ 1 := by
  refine ⟨?_, by decide, by decide, by decide⟩
  decide

/-- The clamped-projection distance computed by `pointToLineDistance` is the
least Euclidean distance from the point to any point of the segment: it is
attained at a parameter in the unit interval and is a lower bound for every
parameter in the unit interval, so it is the distance to the segment and not
to the infinite line. -/
lemma pointToLineDistance_isLeast (px py x1 y1 x2 y2 : ℝ) :
    IsLeast {dd : ℝ | ∃ t : ℝ, t ∈ Set.Icc (0:ℝ) 1 ∧
      dd = Real.sqrt ((px - (x1 + t * (x2 - x1))) ^ 2 +
        (py - (y1 + t * (y2 - y1))) ^ 2)}
      (pointToLineDistance px py x1 y1 x2 y2) := by
  rw [pointToLineDistance]
  set dx := x2 - x1 with hdx
  set dy := y2 - y1 with hdy
  have hsumnn : (0:ℝ) ≤ dx * dx + dy * dy :=
    add_nonneg (mul_self_nonneg dx) (mul_self_nonneg dy)
  by_cases h : Real.sqrt (dx * dx + dy * dy) = 0
  · have hsum : dx * dx + dy * dy = 0 := by
      by_contra hne
      have h2 : dx * dx + dy * dy > 0 := lt_of_le_of_ne hsumnn (Ne.symm hne)
      have h3 := Real.sqrt_pos.mpr h2
      rw [h] at h3
      exact lt_irrefl 0 h3
    have hdx0 : dx = 0 := by nlinarith [mul_self_nonneg dx, mul_self_nonneg dy]
    have hdy0 : dy = 0 := by nlinarith [mul_self_nonneg dx, mul_self_nonneg dy]
    rw [if_pos h]
    constructor
    · refine ⟨0, ⟨le_refl 0, zero_le_one⟩, ?_⟩
      rw [hdx0, hdy0]
      ring_nf
    · rintro dd ⟨t, ht, rfl⟩
      rw [hdx0, hdy0]
      ring_nf
      exact le_refl _
  · rw [if_neg h]
    have hL : 0 < dx * dx + dy * dy := by
      rcases lt_or_eq_of_le hsumnn with h1 | h1
      · exact h1
      · exact absurd (by rw [← h1]; exact Real.sqrt_zero) h
    have hss : Real.sqrt (dx * dx + dy * dy) * Real.sqrt (dx * dx + dy * dy)
        = dx * dx + dy * dy := Real.mul_self_sqrt hsumnn
    rw [hss]
    set z := ((px - x1) * dx + (py - y1) * dy) / (dx * dx + dy * dy)
      with hzdef
    have hDz : (px - x1) * dx + (py - y1) * dy = z * (dx * dx + dy * dy) := by
      rw [hzdef]
      field_simp
    have ht0mem : max 0 (min 1 z) ∈ Set.Icc (0:ℝ) 1 :=
      ⟨le_max_left 0 _, max_le zero_le_one (min_le_left 1 z)⟩
    constructor
    · exact ⟨max 0 (min 1 z), ht0mem, rfl⟩
    · rintro dd ⟨u, hu, rfl⟩
      apply Real.sqrt_le_sqrt
      rcases le_total z 0 with hz | hz
      · have ht00 : max 0 (min 1 z) = 0 :=
          max_eq_left (le_trans (min_le_right 1 z) hz)
        rw [ht00]
        have key : (px - (x1 + u * dx)) ^ 2 + (py - (y1 + u * dy)) ^ 2
            - ((px - (x1 + 0 * dx)) ^ 2 + (py - (y1 + 0 * dy)) ^ 2)
            = (u * u - 2 * u * z) * (dx * dx + dy * dy) := by
          linear_combination (-2 * u) * hDz
        nlinarith [key, mul_nonneg (mul_self_nonneg u) hL.le,
          mul_nonneg (mul_nonneg hu.1 (neg_nonneg.mpr hz)) hL.le]
      · rcases le_total 1 z with hz1 | hz1
        · have ht01 : max 0 (min 1 z) = 1 := by
            rw [min_eq_left hz1, max_eq_right zero_le_one]
          rw [ht01]
          have key : (px - (x1 + u * dx)) ^ 2 + (py - (y1 + u * dy)) ^ 2
              - ((px - (x1 + 1 * dx)) ^ 2 + (py - (y1 + 1 * dy)) ^ 2)
              = ((1 - u) * (2 * z - u - 1)) * (dx * dx + dy * dy) := by
            linear_combination (2 * (1 - u)) * hDz
          have h2z : (0:ℝ) ≤ 2 * z - u - 1 := by linarith [hu.2]
          nlinarith [key,
            mul_nonneg (mul_nonneg (sub_nonneg.mpr hu.2) h2z) hL.le]
        · have ht0z : max 0 (min 1 z) = z := by
            rw [min_eq_right hz1, max_eq_right hz]
          rw [ht0z]
          have key : (px - (x1 + u * dx)) ^ 2 + (py - (y1 + u * dy)) ^ 2
              - ((px - (x1 + z * dx)) ^ 2 + (py - (y1 + z * dy)) ^ 2)
              = ((u - z) * (u - z)) * (dx * dx + dy * dy) := by
            linear_combination (2 * (z - u)) * hDz
          nlinarith [key,
            mul_nonneg (mul_self_nonneg (u - z)) hL.le]

/-- C5: for every connector shape and pointer point, the hit test succeeds
exactly when the distance from the point to the segment between the
resolved endpoints (anchor-resolved when bound, literal otherwise) is below
the fixed threshold 8, which lies in the range 5 to 8; and that distance is
the least Euclidean distance to any point of the segment (the projection
parameter being clamped to the unit interval), not the distance to the
infinite line. -/
theorem connector_hit_test_spec (heap : List Shape)
    (measureWidth : String → Rat) (s : Shape) (x y : Rat)
    (hs : s.type = ShapeType.line ∨ s.type = ShapeType.arrow) :
    (contains heap measureWidth s x y ↔
      pointToLineDistance (x : ℝ) (y : ℝ)
        ((resolvedStart heap s).1 : ℝ) ((resolvedStart heap s).2 : ℝ)
        ((resolvedEnd heap s).1 : ℝ) ((resolvedEnd heap s).2 : ℝ) < 8)
    ∧ ((5:ℝ) ≤ 8 ∧ (8:ℝ) ≤ 8)
    ∧ IsLeast {dd : ℝ | ∃ t : ℝ, t ∈ Set.Icc (0:ℝ) 1 ∧
        dd = Real.sqrt (((x : ℝ) - (((resolvedStart heap s).1 : ℝ) +
            t * (((resolvedEnd heap s).1 : ℝ) -
              ((resolvedStart heap s).1 : ℝ)))) ^ 2 +
          ((y : ℝ) - (((resolvedStart heap s).2 : ℝ) +
            t * (((resolvedEnd heap s).2 : ℝ) -
              ((resolvedStart heap s).2 : ℝ)))) ^ 2)}
      (pointToLineDistance (x : ℝ) (y : ℝ)
        ((resolvedStart heap s).1 : ℝ) ((resolvedStart heap s).2 : ℝ)
        ((resolvedEnd heap s).1 : ℝ) ((resolvedEnd heap s).2 : ℝ)) := by
  refine ⟨?_, ⟨by norm_num, le_refl _⟩, ?_⟩
  · rcases hs with h | h <;> simp [contains, h, containsLine]
  · exact pointToLineDistance_isLeast _ _ _ _ _ _

/-- An unbound line connector from (0,0) to (10,0). -/
def hitLine : Shape := mkShape ShapeType.line 0 0 10 0 "" 1

/-- Witness for C5 at the unbound line from (0,0) to (10,0) and the pointer
point (3,4). -/
theorem connector_hit_test_spec_witness :
    (contains [] (fun _ => 0) hitLine 3 4 ↔
      pointToLineDistance ((3 : Rat) : ℝ) ((4 : Rat) : ℝ)
        ((resolvedStart [] hitLine).1 : ℝ) ((resolvedStart [] hitLine).2 : ℝ)
        ((resolvedEnd [] hitLine).1 : ℝ) ((resolvedEnd [] hitLine).2 : ℝ)
          < 8)
    ∧ ((5:ℝ) ≤ 8 ∧ (8:ℝ) ≤ 8)
    ∧ IsLeast {dd : ℝ | ∃ t : ℝ, t ∈ Set.Icc (0:ℝ) 1 ∧
        dd = Real.sqrt ((((3 : Rat) : ℝ) - (((resolvedStart [] hitLine).1 : ℝ) +
            t * (((resolvedEnd [] hitLine).1 : ℝ) -
              ((resolvedStart [] hitLine).1 : ℝ)))) ^ 2 +
          (((4 : Rat) : ℝ) - (((resolvedStart [] hitLine).2 : ℝ) +
            t * (((resolvedEnd [] hitLine).2 : ℝ) -
              ((resolvedStart [] hitLine).2 : ℝ)))) ^ 2)}
      (pointToLineDistance ((3 : Rat) : ℝ) ((4 : Rat) : ℝ)
        ((resolvedStart [] hitLine).1 : ℝ) ((resolvedStart [] hitLine).2 : ℝ)
        ((resolvedEnd [] hitLine).1 : ℝ)
        ((resolvedEnd [] hitLine).2 : ℝ)) :=
  connector_hit_test_spec [] (fun _ => 0) hitLine 3 4 (Or.inl rfl)

end DiagramCreator
